import Mathlib

/-!
Shallow embedding of the tracklib coordinate core (`src/tracklib/core/Coords.py`
and the `makeCoords` helper of `src/tracklib/core/Utils.py`) over exact real
arithmetic, together with theorems settling the frozen claims about it.

Python floats are modelled by `ℝ`; `math.atan2` by the principal complex
argument; the `print`-and-`exit` error paths of `_proj` / `_unproj` by
`Except String`; Python's implicit `return None` in `makeCoords` by `Option`.
The in-place mutators (`ENUCoords.rotate/scale/translate`,
`ECEFCoords.scalar`) are embedded in state-passing style: each returns the
updated receiver (the Python methods assign to `self` and return `None`).
-/

noncomputable section

namespace Tracklib

/-- Earth equatorial radius, the module-level constant `Re` of `Coords.py`. -/
def Re : ℝ := 6378137.0

/-- Earth flattening, the module-level constant `Fe` of `Coords.py`. -/
def Fe : ℝ := 1.0 / 298.257223563

/-- Model of Python `math.atan2 y x`: the principal argument of the complex
number with real part `x` and imaginary part `y`, valued in `(-pi, pi]`. -/
def atan2 (y x : ℝ) : ℝ := Complex.arg ⟨x, y⟩

/-- Geographic coordinates record (class `GeoCoords`): longitude and latitude
in decimal degrees, height in metres. -/
@[ext]
structure GeoCoords where
  lon : ℝ
  lat : ℝ
  hgt : ℝ

/-- Local East/North/Up coordinates record (class `ENUCoords`), in metres. -/
@[ext]
structure ENUCoords where
  E : ℝ
  N : ℝ
  U : ℝ

/-- Earth-Centered-Earth-Fixed coordinates record (class `ECEFCoords`),
in metres. -/
@[ext]
structure ECEFCoords where
  X : ℝ
  Y : ℝ
  Z : ℝ

/-- Embedding of `GeoCoords.toECEFCoords`. -/
def GeoCoords.toECEFCoords (self : GeoCoords) : ECEFCoords :=
  let e := Real.sqrt (Fe * (2 - Fe))
  let lon := self.lon * Real.pi / 180.0
  let lat := self.lat * Real.pi / 180.0
  let hgt := self.hgt
  let n := Re / Real.sqrt (1 - (e * Real.sin lat) ^ 2)
  { X := (n + hgt) * Real.cos lat * Real.cos lon
    Y := (n + hgt) * Real.cos lat * Real.sin lon
    Z := ((1 - e * e) * n + hgt) * Real.sin lat }

/-- Embedding of `ECEFCoords.toGeoCoords` (the iteration-free Bowring-style
closed form of `Coords.py`). -/
def ECEFCoords.toGeoCoords (self : ECEFCoords) : GeoCoords :=
  let b := Re * (1 - Fe)
  let e := Real.sqrt (Fe * (2 - Fe))
  let h := Re * Re - b * b
  let p := Real.sqrt (self.X * self.X + self.Y * self.Y)
  let t := atan2 (self.Z * Re) (p * b)
  let lonr := atan2 self.Y self.X
  let latr := atan2 (self.Z + h / b * Real.sin t ^ 3) (p - h / Re * Real.cos t ^ 3)
  let n := Re / Real.sqrt (1 - (e * Real.sin latr) ^ 2)
  let hgt := p / Real.cos latr - n
  { lon := lonr * (180.0 / Real.pi), lat := latr * (180.0 / Real.pi), hgt := hgt }

/-- Conversion bases accepted by the ENU conversions: the Python source
annotates them `Union[ECEFCoords, GeoCoords]` and duck-types
`base.toECEFCoords()`. -/
abbrev BaseCoords := ECEFCoords ⊕ GeoCoords

/-- Normalisation of a base to ECEF, the `base = base.toECEFCoords()` line
(`ECEFCoords.toECEFCoords` returns a copy of the point itself). -/
def BaseCoords.toECEFCoords : BaseCoords → ECEFCoords
  | .inl xyz => xyz
  | .inr geo => geo.toECEFCoords

/-- Embedding of `ECEFCoords.toENUCoords`: rotate the offset from the base
into the base's local tangent-plane axes. -/
def ECEFCoords.toENUCoords (self : ECEFCoords) (base : BaseCoords) : ENUCoords :=
  let b := base.toECEFCoords
  let base_geo := b.toGeoCoords
  let blon := base_geo.lon * Real.pi / 180.0
  let blat := base_geo.lat * Real.pi / 180.0
  let x := self.X - b.X
  let y := self.Y - b.Y
  let z := self.Z - b.Z
  let slon := Real.sin blon
  let slat := Real.sin blat
  let clon := Real.cos blon
  let clat := Real.cos blat
  { E := -x * slon + y * clon
    N := -x * clon * slat - y * slon * slat + z * clat
    U := x * clon * clat + y * slon * clat + z * slat }

/-- Embedding of `ENUCoords.toECEFCoords`: apply the transposed rotation and
add back the base's ECEF coordinates. -/
def ENUCoords.toECEFCoords (self : ENUCoords) (base : BaseCoords) : ECEFCoords :=
  let b := base.toECEFCoords
  let e := self.E
  let n := self.N
  let u := self.U
  let base_geo := b.toGeoCoords
  let blon := base_geo.lon * Real.pi / 180.0
  let blat := base_geo.lat * Real.pi / 180.0
  let slon := Real.sin blon
  let slat := Real.sin blat
  let clon := Real.cos blon
  let clat := Real.cos blat
  { X := -e * slon - n * clon * slat + u * clon * clat + b.X
    Y := e * clon - n * slon * slat + u * slon * clat + b.Y
    Z := n * clat + u * slat + b.Z }

/-- Embedding of `GeoCoords.toENUCoords` with a geodetic base: both points are
routed through ECEF (`base_ecef = base.toECEFCoords(); point_ecef =
self.toECEFCoords(); point_ecef.toENUCoords(base_ecef)`). -/
def GeoCoords.toENUCoords (self base : GeoCoords) : ENUCoords :=
  ECEFCoords.toENUCoords self.toECEFCoords (.inl base.toECEFCoords)

/-- Embedding of `ENUCoords.norm2D`. -/
def ENUCoords.norm2D (self : ENUCoords) : ℝ :=
  Real.sqrt (self.E ^ 2 + self.N ^ 2)

/-- Embedding of `ENUCoords.norm`. -/
def ENUCoords.norm (self : ENUCoords) : ℝ :=
  Real.sqrt (self.E ^ 2 + self.N ^ 2 + self.U ^ 2)

/-- Embedding of `ENUCoords.dot`. -/
def ENUCoords.dot (self point : ENUCoords) : ℝ :=
  self.E * point.E + self.N * point.N + self.U * point.U

/-- Embedding of `ENUCoords.__sub__`: Python's `a - b` calls `a.__sub__(b)`,
and the body returns the ARGUMENT minus the RECEIVER
(`ENUCoords(p.E - self.E, p.N - self.N, p.U - self.U)`). -/
def ENUCoords.sub (self p : ENUCoords) : ENUCoords :=
  ⟨p.E - self.E, p.N - self.N, p.U - self.U⟩

/-- Embedding of `ENUCoords.__add__`. -/
def ENUCoords.add (self p : ENUCoords) : ENUCoords :=
  ⟨p.E + self.E, p.N + self.N, p.U + self.U⟩

/-- Embedding of `ENUCoords.elevationTo`: `visee = point - self`, i.e.
`ENUCoords.sub point self` under the source's reversed `__sub__`. -/
def ENUCoords.elevationTo (self point : ENUCoords) : ℝ :=
  let visee := ENUCoords.sub point self
  atan2 visee.U visee.norm2D

/-- Embedding of `ENUCoords.azimuthTo`. -/
def ENUCoords.azimuthTo (self point : ENUCoords) : ℝ :=
  let visee := ENUCoords.sub point self
  atan2 visee.E visee.N

/-- Embedding of `ENUCoords.distance2DTo`. -/
def ENUCoords.distance2DTo (self point : ENUCoords) : ℝ :=
  (ENUCoords.sub point self).norm2D

/-- Embedding of `ENUCoords.distanceTo`. -/
def ENUCoords.distanceTo (self point : ENUCoords) : ℝ :=
  (ENUCoords.sub point self).norm

/-- Embedding of the in-place mutator `ENUCoords.rotate` (state-passing:
the returned record is the mutated receiver). -/
def ENUCoords.rotate (self : ENUCoords) (theta : ℝ) : ENUCoords :=
  let cr := Real.cos theta
  let sr := Real.sin theta
  ⟨cr * self.E - sr * self.N, sr * self.E + cr * self.N, self.U⟩

/-- Embedding of the in-place mutator `ENUCoords.scale` (state-passing). -/
def ENUCoords.scale (self : ENUCoords) (h : ℝ) : ENUCoords :=
  ⟨self.E * h, self.N * h, self.U⟩

/-- Embedding of the in-place mutator `ENUCoords.translate` (state-passing). -/
def ENUCoords.translate (self : ENUCoords) (tx ty tz : ℝ) : ENUCoords :=
  ⟨self.E + tx, self.N + ty, self.U + tz⟩

/-- Embedding of `ECEFCoords.dot`. -/
def ECEFCoords.dot (self point : ECEFCoords) : ℝ :=
  self.X * point.X + self.Y * point.Y + self.Z * point.Z

/-- Embedding of `ECEFCoords.norm`. -/
def ECEFCoords.norm (self : ECEFCoords) : ℝ :=
  Real.sqrt (self.dot self)

/-- Embedding of the in-place mutator `ECEFCoords.scalar` (state-passing:
`self.X *= factor; self.Y *= factor; self.Z *= factor`, returning `None` in
Python; here the mutated receiver is returned). -/
def ECEFCoords.scalar (self : ECEFCoords) (factor : ℝ) : ECEFCoords :=
  ⟨self.X * factor, self.Y * factor, self.Z * factor⟩

/-- Embedding of `ECEFCoords.__sub__` (argument minus receiver, exactly as in
the source). -/
def ECEFCoords.sub (self p : ECEFCoords) : ECEFCoords :=
  ⟨p.X - self.X, p.Y - self.Y, p.Z - self.Z⟩

/-- Embedding of `ECEFCoords.__add__`. -/
def ECEFCoords.add (self p : ECEFCoords) : ECEFCoords :=
  ⟨p.X + self.X, p.Y + self.Y, p.Z + self.Z⟩

/-- Embedding of `ECEFCoords.distanceTo`: `(point - self).norm()`. -/
def ECEFCoords.distanceTo (self point : ECEFCoords) : ℝ :=
  (ECEFCoords.sub point self).norm

/-- Embedding of `ECEFCoords.elevationTo`: the target is expressed in ENU
relative to the receiver as base. -/
def ECEFCoords.elevationTo (self point : ECEFCoords) : ℝ :=
  let objectif := point.toENUCoords (.inl self)
  atan2 objectif.U objectif.norm2D

/-- Embedding of `ECEFCoords.azimuthTo`. -/
def ECEFCoords.azimuthTo (self point : ECEFCoords) : ℝ :=
  let objectif := point.toENUCoords (.inl self)
  atan2 objectif.E objectif.N

/-- Embedding of `GeoCoords.distanceTo`: both points through ECEF. -/
def GeoCoords.distanceTo (self point : GeoCoords) : ℝ :=
  self.toECEFCoords.distanceTo point.toECEFCoords

/-- Embedding of `GeoCoords.distance2DTo`: `self.toENUCoords(point).norm2D()`,
i.e. the planar norm of the RECEIVER expressed relative to the ARGUMENT. -/
def GeoCoords.distance2DTo (self point : GeoCoords) : ℝ :=
  (self.toENUCoords point).norm2D

/-- Embedding of `GeoCoords.elevationTo`. -/
def GeoCoords.elevationTo (self point : GeoCoords) : ℝ :=
  let objectif := point.toENUCoords self
  atan2 objectif.U objectif.norm2D

/-- Embedding of `GeoCoords.azimuthTo`. -/
def GeoCoords.azimuthTo (self point : GeoCoords) : ℝ :=
  let objectif := point.toENUCoords self
  atan2 objectif.E objectif.N

/-! Projection subsystem. The six Lambert-93 constants are local variables
`E, Xp, Yp, n, C, lambda0` of `_projToLambert93` / `__projFromLambert93`. -/

/-- Lambert-93 first-eccentricity constant (`E` in the source). -/
def lambertE : ℝ := 0.08181919106

/-- Lambert-93 false easting (`Xp`). -/
def lambertXp : ℝ := 700000.000

/-- Lambert-93 false northing of the cone apex (`Yp`). -/
def lambertYp : ℝ := 12655612.050

/-- Lambert-93 cone constant (`n`). -/
def lambertN : ℝ := 0.725607765053267

/-- Lambert-93 scale constant (`C`). -/
def lambertC : ℝ := 11754255.4260960

/-- Lambert-93 central meridian in radians (`lambda0`). -/
def lambertLambda0 : ℝ := 0.0523598775598299

/-- Isometric latitude recovered by `__projFromLambert93` from the planar
offsets (`latiso = -log(sqrt((X-Xp)**2 + (Y-Yp)**2) / C) / n`). -/
def lambertLatiso (coords : ENUCoords) : ℝ :=
  -Real.log (Real.sqrt ((coords.E - lambertXp) ^ 2 + (coords.N - lambertYp) ^ 2) / lambertC)
    / lambertN

/-- One pass of the latitude refinement loop of `__projFromLambert93`:
the eccentricity-correction map applied to the current latitude. -/
def lambertRefine (latiso phi : ℝ) : ℝ :=
  2 * Real.arctan
      (((1 + lambertE * Real.sin phi) / (1 - lambertE * Real.sin phi)) ^ (lambertE / 2)
        * Real.exp latiso)
    - Real.pi / 2

/-- Mercator-inverse starting value of the refinement
(`phi = 2 * atan(exp(latiso)) - pi / 2`). -/
def lambertPhi0 (latiso : ℝ) : ℝ :=
  2 * Real.arctan (Real.exp latiso) - Real.pi / 2

/-- Embedding of `__projFromLambert93`: longitude by closed form, latitude by
the fixed ten-pass refinement loop (`for i in range(10)`), height passed
through. -/
def projFromLambert93 (coords : ENUCoords) : GeoCoords :=
  let lonr := Real.arctan (-(coords.E - lambertXp) / (coords.N - lambertYp)) / lambertN
    + lambertLambda0
  let latiso := lambertLatiso coords
  let phi := (List.range 10).foldl (fun phi _ => lambertRefine latiso phi) (lambertPhi0 latiso)
  { lon := lonr * 180 / Real.pi, lat := phi * 180 / Real.pi, hgt := coords.U }

/-- Embedding of `_projToLambert93` (forward conic projection). -/
def projToLambert93 (coords : GeoCoords) : ENUCoords :=
  let lonr := coords.lon * Real.pi / 180.0
  let phi := coords.lat * Real.pi / 180.0
  let latiso := Real.log (Real.tan (Real.pi / 4 + phi / 2)
    * ((1 - lambertE * Real.sin phi) / (1 + lambertE * Real.sin phi)) ^ (lambertE / 2))
  let x := lambertXp + lambertC * Real.exp (-lambertN * latiso)
    * Real.sin (lambertN * (lonr - lambertLambda0))
  let y := lambertYp - lambertC * Real.exp (-lambertN * latiso)
    * Real.cos (lambertN * (lonr - lambertLambda0))
  ⟨x, y, coords.hgt⟩

/-- Series part of `_projFromUTM`: from the easting offset `x` (already minus
the 500000 m false easting) and the hemisphere-adjusted northing `y`, the pair
(footpoint-series latitude, longitude offset from the central meridian), both
in radians, exactly as computed by the source's trigonometric series. -/
def utmInverseRad (x y : ℝ) : ℝ × ℝ :=
  let K0 : ℝ := 0.9996
  let E : ℝ := 0.00669438
  let E2 := E * E
  let E3 := E2 * E
  let E_P2 := E / (1.0 - E)
  let SQRT_E := Real.sqrt (1 - E)
  let eps := (1 - SQRT_E) / (1 + SQRT_E)
  let eps2 := eps * eps
  let eps3 := eps2 * eps
  let eps4 := eps3 * eps
  let eps5 := eps4 * eps
  let M1 := 1 - E / 4 - 3 * E2 / 64 - 5 * E3 / 256
  let P2 := 3.0 / 2 * eps - 27.0 / 32 * eps3 + 269.0 / 512 * eps5
  let P3 := 21.0 / 16 * eps2 - 55.0 / 32 * eps4
  let P4 := 151.0 / 96 * eps3 - 417.0 / 128 * eps5
  let P5 := 1097.0 / 512 * eps4
  let R : ℝ := 6378137
  let m := y / K0
  let mu := m / (R * M1)
  let p_rad := mu + P2 * Real.sin (2 * mu) + P3 * Real.sin (4 * mu)
    + P4 * Real.sin (6 * mu) + P5 * Real.sin (8 * mu)
  let p_sin := Real.sin p_rad
  let p_sin2 := p_sin * p_sin
  let p_cos := Real.cos p_rad
  let p_tan := p_sin / p_cos
  let p_tan2 := p_tan * p_tan
  let p_tan4 := p_tan2 * p_tan2
  let ep_sin := 1 - E * p_sin2
  let ep_sin_sqrt := Real.sqrt (1 - E * p_sin2)
  let n := R / ep_sin_sqrt
  let r := (1 - E) / ep_sin
  let c := E_P2 * p_cos ^ 2
  let c2 := c * c
  let d := x / (n * K0)
  let d2 := d * d
  let d3 := d2 * d
  let d4 := d3 * d
  let d5 := d4 * d
  let d6 := d5 * d
  let latitude := p_rad
    - (p_tan / r) * (d2 / 2 - d4 / 24 * (5 + 3 * p_tan2 + 10 * c - 4 * c2 - 9 * E_P2))
    + d6 / 720 * (61 + 90 * p_tan2 + 298 * c + 45 * p_tan4 - 252 * E_P2 - 3 * c2)
  let longitude := (d - d3 / 6 * (1 + 2 * p_tan2 + c)
    + d5 / 120 * (5 - 2 * c + 28 * p_tan2 - 3 * c2 + 8 * E_P2 + 24 * p_tan4)) / p_cos
  (latitude, longitude)

/-- Embedding of `_projFromUTM`: subtract the false easting, map the zone to
its central meridian `(zone - 1) * 6 - 180 + 3`, subtract the 10,000,000 m
false northing for the southern hemisphere, then run the inverse series and
add the central meridian (converted with `math.radians`) to the longitude. -/
def projFromUTM (coords : ENUCoords) (zone : ℤ) (northern : Bool) : GeoCoords :=
  let x := coords.E - 500000
  let zone_number_to_central_longitude : ℤ := (zone - 1) * 6 - 180 + 3
  let y := if northern then coords.N else coords.N - 10000000
  let latitude := (utmInverseRad x y).1
  let longitude := (utmInverseRad x y).2
    + (zone_number_to_central_longitude : ℝ) * Real.pi / 180
  { lon := longitude * 180 / Real.pi, lat := latitude * 180 / Real.pi, hgt := coords.U }

/-- Diagnostic printed by `_proj` / `_unproj` before `exit()` (the source's
spelling is kept). -/
def sridErrorMessage (srid : ℤ) : String :=
  "Error: SRID code " ++ toString srid ++ " is not implmented in Tracklib"

/-- Embedding of `_proj`: forward projection dispatch. The source prints the
diagnostic and aborts the process for any SRID other than 2154; that error
path is modelled with `Except.error`. -/
def proj (coords : GeoCoords) (srid : ℤ) : Except String ENUCoords :=
  if srid = 2154 then .ok (projToLambert93 coords)
  else .error (sridErrorMessage srid)

/-- Embedding of `_unproj`: inverse projection dispatch (2154 conic, the UTM
band 32600-32799 with `zone = (srid - 32600) % 100` and
`north = srid < 32700`, everything else the error path). -/
def unproj (coords : ENUCoords) (srid : ℤ) : Except String GeoCoords :=
  if srid = 2154 then .ok (projFromLambert93 coords)
  else if 32600 ≤ srid ∧ srid ≤ 32799 then
    .ok (projFromUTM coords ((srid - 32600) % 100) (decide (srid < 32700)))
  else .error (sridErrorMessage srid)

/-- Tagged union of the three coordinate records, the possible results of
`makeCoords`. -/
inductive Coords where
  | enu : ENUCoords → Coords
  | geo : GeoCoords → Coords
  | ecef : ECEFCoords → Coords

/-- Embedding of `Utils.makeCoords`: the coordinate-kind string is upper-cased
and matched against the six recognised tokens; Python's implicit `return None`
on fall-through is the `none` branch. -/
def makeCoords (x y z : ℝ) (srid : String) : Option Coords :=
  if srid.toUpper ∈ ["ENUCOORDS", "ENU"] then some (.enu ⟨x, y, z⟩)
  else if srid.toUpper ∈ ["GEOCOORDS", "GEO"] then some (.geo ⟨x, y, z⟩)
  else if srid.toUpper ∈ ["ECEFCOORDS", "ECEF"] then some (.ecef ⟨x, y, z⟩)
  else none

/-- Embedding of `GeoCoords.toGeoCoords` (returns a copy of the point; a copy
of a value is the value itself). -/
def GeoCoords.toGeoCoords (self : GeoCoords) : GeoCoords := self

/-- Embedding of `ECEFCoords.toECEFCoords` (returns a copy of the point). -/
def ECEFCoords.toECEFCoords (self : ECEFCoords) : ECEFCoords := self

/-- Embedding of `GeoCoords.toProjCoords` (delegates to `_proj`). -/
def GeoCoords.toProjCoords (self : GeoCoords) (srid : ℤ) : Except String ENUCoords :=
  proj self srid

/-- Embedding of `ENUCoords.toGeoCoords` with a coordinate base: the point is
routed through ECEF (`base_ecef = base.toECEFCoords(); point_ecef =
self.toECEFCoords(base_ecef); point_ecef.toGeoCoords()`); the source's
integer-SRID branch is the separate `unproj`. -/
def ENUCoords.toGeoCoords (self : ENUCoords) (base : BaseCoords) : GeoCoords :=
  (self.toECEFCoords (.inl base.toECEFCoords)).toGeoCoords

/-- Embedding of `ENUCoords.toENUCoords` (re-basing from `base1` to `base2`):
pivot through ECEF with both bases, no shortcut. -/
def ENUCoords.toENUCoords (self : ENUCoords) (base1 base2 : BaseCoords) : ENUCoords :=
  (self.toECEFCoords (.inl base1.toECEFCoords)).toENUCoords (.inl base2.toECEFCoords)

/-- Embedding of `GeoCoords.copy` (a deep copy of a value record is the
value itself). -/
def GeoCoords.copy (self : GeoCoords) : GeoCoords := self

/-- Embedding of `ENUCoords.copy`. -/
def ENUCoords.copy (self : ENUCoords) : ENUCoords := self

/-- Embedding of `ECEFCoords.copy`. -/
def ECEFCoords.copy (self : ECEFCoords) : ECEFCoords := self

/-- Embedding of the alias getter `GeoCoords.getX` (returns the longitude). -/
def GeoCoords.getX (self : GeoCoords) : ℝ := self.lon

/-- Embedding of the alias getter `GeoCoords.getY` (returns the latitude). -/
def GeoCoords.getY (self : GeoCoords) : ℝ := self.lat

/-- Embedding of the alias getter `GeoCoords.getZ` (returns the height). -/
def GeoCoords.getZ (self : GeoCoords) : ℝ := self.hgt

/-- Embedding of the alias getter `ENUCoords.getX`. -/
def ENUCoords.getX (self : ENUCoords) : ℝ := self.E

/-- Embedding of the alias getter `ENUCoords.getY`. -/
def ENUCoords.getY (self : ENUCoords) : ℝ := self.N

/-- Embedding of the alias getter `ENUCoords.getZ`. -/
def ENUCoords.getZ (self : ENUCoords) : ℝ := self.U

/-- Embedding of the alias getter `ECEFCoords.getX`. -/
def ECEFCoords.getX (self : ECEFCoords) : ℝ := self.X

/-- Embedding of the alias getter `ECEFCoords.getY`. -/
def ECEFCoords.getY (self : ECEFCoords) : ℝ := self.Y

/-- Embedding of the alias getter `ECEFCoords.getZ`. -/
def ECEFCoords.getZ (self : ECEFCoords) : ℝ := self.Z

/-! State-passing forms of the query and conversion methods, used to express
the frame-effect claim: each returns the receiver, then every coordinate-
valued argument, then the method's result. The Python bodies of these methods
contain no assignment to an attribute of `self` or of an argument (local
rebindings such as `base = base.toECEFCoords()` rebind a name, they do not
mutate the caller's object), so the translation returns receiver and
arguments unchanged. Numeric arguments (floats, SRID integers) are immutable
Python values and are not threaded. -/

/-- State-passing `GeoCoords.toECEFCoords`. -/
def GeoCoords.toECEFCoordsS (self : GeoCoords) : GeoCoords × ECEFCoords :=
  (self, self.toECEFCoords)

/-- State-passing `GeoCoords.toENUCoords` (receiver, base argument, result). -/
def GeoCoords.toENUCoordsS (self base : GeoCoords) :
    GeoCoords × GeoCoords × ENUCoords :=
  (self, base, self.toENUCoords base)

/-- State-passing `GeoCoords.toGeoCoords`. -/
def GeoCoords.toGeoCoordsS (self : GeoCoords) : GeoCoords × GeoCoords :=
  (self, self.toGeoCoords)

/-- State-passing `GeoCoords.copy`. -/
def GeoCoords.copyS (self : GeoCoords) : GeoCoords × GeoCoords :=
  (self, self.copy)

/-- State-passing `GeoCoords.distanceTo`. -/
def GeoCoords.distanceToS (self point : GeoCoords) : GeoCoords × GeoCoords × ℝ :=
  (self, point, self.distanceTo point)

/-- State-passing `GeoCoords.distance2DTo`. -/
def GeoCoords.distance2DToS (self point : GeoCoords) : GeoCoords × GeoCoords × ℝ :=
  (self, point, self.distance2DTo point)

/-- State-passing `GeoCoords.elevationTo`. -/
def GeoCoords.elevationToS (self point : GeoCoords) : GeoCoords × GeoCoords × ℝ :=
  (self, point, self.elevationTo point)

/-- State-passing `GeoCoords.azimuthTo`. -/
def GeoCoords.azimuthToS (self point : GeoCoords) : GeoCoords × GeoCoords × ℝ :=
  (self, point, self.azimuthTo point)

/-- State-passing `GeoCoords.toProjCoords` (the SRID argument is an immutable
Python int). -/
def GeoCoords.toProjCoordsS (self : GeoCoords) (srid : ℤ) :
    GeoCoords × Except String ENUCoords :=
  (self, self.toProjCoords srid)

/-- State-passing `GeoCoords.getX`. -/
def GeoCoords.getXS (self : GeoCoords) : GeoCoords × ℝ :=
  (self, self.getX)

/-- State-passing `GeoCoords.getY`. -/
def GeoCoords.getYS (self : GeoCoords) : GeoCoords × ℝ :=
  (self, self.getY)

/-- State-passing `GeoCoords.getZ`. -/
def GeoCoords.getZS (self : GeoCoords) : GeoCoords × ℝ :=
  (self, self.getZ)

/-- State-passing `ENUCoords.toECEFCoords`. -/
def ENUCoords.toECEFCoordsS (self : ENUCoords) (base : BaseCoords) :
    ENUCoords × BaseCoords × ECEFCoords :=
  (self, base, self.toECEFCoords base)

/-- State-passing `ENUCoords.toGeoCoords`. -/
def ENUCoords.toGeoCoordsS (self : ENUCoords) (base : BaseCoords) :
    ENUCoords × BaseCoords × GeoCoords :=
  (self, base, self.toGeoCoords base)

/-- State-passing `ENUCoords.toENUCoords` (receiver, both bases, result). -/
def ENUCoords.toENUCoordsS (self : ENUCoords) (base1 base2 : BaseCoords) :
    ENUCoords × BaseCoords × BaseCoords × ENUCoords :=
  (self, base1, base2, self.toENUCoords base1 base2)

/-- State-passing `ENUCoords.norm2D`. -/
def ENUCoords.norm2DS (self : ENUCoords) : ENUCoords × ℝ :=
  (self, self.norm2D)

/-- State-passing `ENUCoords.norm`. -/
def ENUCoords.normS (self : ENUCoords) : ENUCoords × ℝ :=
  (self, self.norm)

/-- State-passing `ENUCoords.dot`. -/
def ENUCoords.dotS (self point : ENUCoords) : ENUCoords × ENUCoords × ℝ :=
  (self, point, self.dot point)

/-- State-passing `ENUCoords.elevationTo`. -/
def ENUCoords.elevationToS (self point : ENUCoords) : ENUCoords × ENUCoords × ℝ :=
  (self, point, self.elevationTo point)

/-- State-passing `ENUCoords.azimuthTo`. -/
def ENUCoords.azimuthToS (self point : ENUCoords) : ENUCoords × ENUCoords × ℝ :=
  (self, point, self.azimuthTo point)

/-- State-passing `ENUCoords.__sub__`. -/
def ENUCoords.subS (self p : ENUCoords) : ENUCoords × ENUCoords × ENUCoords :=
  (self, p, self.sub p)

/-- State-passing `ENUCoords.__add__`. -/
def ENUCoords.addS (self p : ENUCoords) : ENUCoords × ENUCoords × ENUCoords :=
  (self, p, self.add p)

/-- State-passing `ENUCoords.distance2DTo`. -/
def ENUCoords.distance2DToS (self point : ENUCoords) : ENUCoords × ENUCoords × ℝ :=
  (self, point, self.distance2DTo point)

/-- State-passing `ENUCoords.distanceTo`. -/
def ENUCoords.distanceToS (self point : ENUCoords) : ENUCoords × ENUCoords × ℝ :=
  (self, point, self.distanceTo point)

/-- State-passing `ENUCoords.copy`. -/
def ENUCoords.copyS (self : ENUCoords) : ENUCoords × ENUCoords :=
  (self, self.copy)

/-- State-passing `ENUCoords.getX`. -/
def ENUCoords.getXS (self : ENUCoords) : ENUCoords × ℝ :=
  (self, self.getX)

/-- State-passing `ENUCoords.getY`. -/
def ENUCoords.getYS (self : ENUCoords) : ENUCoords × ℝ :=
  (self, self.getY)

/-- State-passing `ENUCoords.getZ`. -/
def ENUCoords.getZS (self : ENUCoords) : ENUCoords × ℝ :=
  (self, self.getZ)

/-- State-passing `ECEFCoords.toGeoCoords`. -/
def ECEFCoords.toGeoCoordsS (self : ECEFCoords) : ECEFCoords × GeoCoords :=
  (self, self.toGeoCoords)

/-- State-passing `ECEFCoords.toENUCoords`. -/
def ECEFCoords.toENUCoordsS (self : ECEFCoords) (base : BaseCoords) :
    ECEFCoords × BaseCoords × ENUCoords :=
  (self, base, self.toENUCoords base)

/-- State-passing `ECEFCoords.toECEFCoords`. -/
def ECEFCoords.toECEFCoordsS (self : ECEFCoords) : ECEFCoords × ECEFCoords :=
  (self, self.toECEFCoords)

/-- State-passing `ECEFCoords.elevationTo`. -/
def ECEFCoords.elevationToS (self point : ECEFCoords) : ECEFCoords × ECEFCoords × ℝ :=
  (self, point, self.elevationTo point)

/-- State-passing `ECEFCoords.azimuthTo`. -/
def ECEFCoords.azimuthToS (self point : ECEFCoords) : ECEFCoords × ECEFCoords × ℝ :=
  (self, point, self.azimuthTo point)

/-- State-passing `ECEFCoords.dot`. -/
def ECEFCoords.dotS (self point : ECEFCoords) : ECEFCoords × ECEFCoords × ℝ :=
  (self, point, self.dot point)

/-- State-passing `ECEFCoords.norm`. -/
def ECEFCoords.normS (self : ECEFCoords) : ECEFCoords × ℝ :=
  (self, self.norm)

/-- State-passing `ECEFCoords.__sub__`. -/
def ECEFCoords.subS (self p : ECEFCoords) : ECEFCoords × ECEFCoords × ECEFCoords :=
  (self, p, self.sub p)

/-- State-passing `ECEFCoords.__add__`. -/
def ECEFCoords.addS (self p : ECEFCoords) : ECEFCoords × ECEFCoords × ECEFCoords :=
  (self, p, self.add p)

/-- State-passing `ECEFCoords.distanceTo`. -/
def ECEFCoords.distanceToS (self point : ECEFCoords) : ECEFCoords × ECEFCoords × ℝ :=
  (self, point, self.distanceTo point)

/-- State-passing `ECEFCoords.copy`. -/
def ECEFCoords.copyS (self : ECEFCoords) : ECEFCoords × ECEFCoords :=
  (self, self.copy)

/-- State-passing `ECEFCoords.getX`. -/
def ECEFCoords.getXS (self : ECEFCoords) : ECEFCoords × ℝ :=
  (self, self.getX)

/-- State-passing `ECEFCoords.getY`. -/
def ECEFCoords.getYS (self : ECEFCoords) : ECEFCoords × ℝ :=
  (self, self.getY)

/-- State-passing `ECEFCoords.getZ`. -/
def ECEFCoords.getZS (self : ECEFCoords) : ECEFCoords × ℝ :=
  (self, self.getZ)

/-! Basic facts about the constants and about `atan2`. -/

lemma Re_pos : (0 : ℝ) < Re := by norm_num [Re]

lemma Fe_pos : (0 : ℝ) < Fe := by norm_num [Fe]

lemma Fe_lt_one : Fe < 1 := by norm_num [Fe]

lemma atan2_zero_of_pos {x : ℝ} (hx : 0 < x) : atan2 0 x = 0 := by
  have hc : (⟨x, (0 : ℝ)⟩ : ℂ) = (x : ℂ) := by simp [Complex.ext_iff]
  rw [atan2, hc]
  exact Complex.arg_ofReal_of_nonneg hx.le

lemma atan2_zero_of_neg {x : ℝ} (hx : x < 0) : atan2 0 x = Real.pi := by
  have hc : (⟨x, (0 : ℝ)⟩ : ℂ) = (x : ℂ) := by simp [Complex.ext_iff]
  rw [atan2, hc]
  exact Complex.arg_ofReal_of_neg hx

lemma atan2_imag_pos {y : ℝ} (hy : 0 < y) : atan2 y 0 = Real.pi / 2 := by
  have hc : (⟨(0 : ℝ), y⟩ : ℂ) = (y : ℂ) * Complex.I := by simp [Complex.ext_iff]
  rw [atan2, hc, Complex.arg_real_mul _ hy, Complex.arg_I]

lemma atan2_imag_neg {y : ℝ} (hy : y < 0) : atan2 y 0 = -(Real.pi / 2) := by
  have hc : (⟨(0 : ℝ), y⟩ : ℂ) = ((-y : ℝ) : ℂ) * -Complex.I := by
    simp [Complex.ext_iff]
  rw [atan2, hc, Complex.arg_real_mul _ (by linarith : (0 : ℝ) < -y), Complex.arg_neg_I]

lemma atan2_mul_cos_sin {r t : ℝ} (hr : 0 < r)
    (ht : t ∈ Set.Ioc (-Real.pi) Real.pi) :
    atan2 (r * Real.sin t) (r * Real.cos t) = t := by
  have hc : (⟨r * Real.cos t, r * Real.sin t⟩ : ℂ)
      = (r : ℂ) * (Complex.cos t + Complex.sin t * Complex.I) := by
    apply Complex.ext <;>
      simp [Complex.cos_ofReal_re, Complex.sin_ofReal_re, Complex.cos_ofReal_im,
        Complex.sin_ofReal_im]
  rw [atan2, hc, Complex.arg_real_mul _ hr, Complex.arg_cos_add_sin_mul_I ht]

lemma sin_atan2 (y x : ℝ) :
    Real.sin (atan2 y x) = y / Real.sqrt (x ^ 2 + y ^ 2) := by
  rw [atan2, Complex.sin_arg]
  simp [Complex.abs_apply, Complex.normSq_mk]
  ring_nf

lemma cos_atan2 {y x : ℝ} (h : x ≠ 0 ∨ y ≠ 0) :
    Real.cos (atan2 y x) = x / Real.sqrt (x ^ 2 + y ^ 2) := by
  have hz : (⟨x, y⟩ : ℂ) ≠ 0 := by
    simp only [ne_eq, Complex.ext_iff, Complex.zero_re, Complex.zero_im, not_and_or]
    tauto
  rw [atan2, Complex.cos_arg hz]
  simp [Complex.abs_apply, Complex.normSq_mk]
  ring_nf

/-- Helper: a `for i in range(n)` loop that keeps applying the same map is the
`n`-fold iterate of that map. -/
lemma foldl_range_const {α : Type*} (f : α → α) :
    ∀ (n : ℕ) (x : α), (List.range n).foldl (fun a _ => f a) x = f^[n] x := by
  intro n
  induction n with
  | zero => intro x; simp
  | succ k ih =>
    intro x
    rw [List.range_succ, List.foldl_append, ih]
    simp [Function.iterate_succ_apply']

/-- C7: for every pair of points of the same frame kind (ECEF, ENU or
Geodetic), `distanceTo` is exactly symmetric. -/
theorem distanceTo_symm :
    (∀ a b : ECEFCoords, a.distanceTo b = b.distanceTo a) ∧
    (∀ a b : ENUCoords, a.distanceTo b = b.distanceTo a) ∧
    (∀ a b : GeoCoords, a.distanceTo b = b.distanceTo a) := by
  have hecef : ∀ a b : ECEFCoords, a.distanceTo b = b.distanceTo a := by
    intro a b
    simp only [ECEFCoords.distanceTo, ECEFCoords.sub, ECEFCoords.norm, ECEFCoords.dot]
    congr 1
    ring
  refine ⟨hecef, ?_, ?_⟩
  · intro a b
    simp only [ENUCoords.distanceTo, ENUCoords.sub, ENUCoords.norm]
    congr 1
    ring
  · intro a b
    simp only [GeoCoords.distanceTo]
    exact hecef _ _

/-- C6: requesting a forward projection for any SRID other than 2154, or an
inverse projection for any SRID neither 2154 nor in the UTM band
32600-32799, reaches the unsupported-projection error condition carrying the
printed diagnostic, and never returns coordinates. -/
theorem unsupported_srid_error :
    (∀ (c : GeoCoords) (srid : ℤ), srid ≠ 2154 →
      proj c srid = .error (sridErrorMessage srid)) ∧
    (∀ (c : ENUCoords) (srid : ℤ), srid ≠ 2154 →
      ¬(32600 ≤ srid ∧ srid ≤ 32799) →
      unproj c srid = .error (sridErrorMessage srid)) := by
  constructor
  · intro c srid h
    simp [proj, h]
  · intro c srid h h2
    simp [unproj, h, h2]

/-- Witness for C6 at the SRID 9999 named by the spec: both directions hit
the error condition. -/
theorem unsupported_srid_error_witness :
    proj ⟨2.3522, 48.8566, 0⟩ 9999 = .error (sridErrorMessage 9999) ∧
    unproj ⟨652069.5, 6862209.7, 0⟩ 9999 = .error (sridErrorMessage 9999) :=
  ⟨unsupported_srid_error.1 _ 9999 (by norm_num),
    unsupported_srid_error.2 _ 9999 (by norm_num) (by omega)⟩

/-- C10: for every (x, y, z) and every coordinate-kind string whose
upper-casing is none of the six recognised tokens, `makeCoords` returns no
coordinate object at all (Python `None`, modelled `none`) rather than raising
or defaulting. -/
theorem makeCoords_unknown_none :
    ∀ (x y z : ℝ) (srid : String),
      srid.toUpper ∉ ["ENUCOORDS", "ENU", "GEOCOORDS", "GEO", "ECEFCOORDS", "ECEF"] →
      makeCoords x y z srid = none := by
  intro x y z srid h
  simp only [List.mem_cons, List.not_mem_nil, or_false, not_or] at h
  obtain ⟨h1, h2, h3, h4, h5, h6⟩ := h
  simp [makeCoords, h1, h2, h3, h4, h5, h6]

/-- Witness for C10 at the concrete kind string "wgs84". -/
theorem makeCoords_unknown_none_witness :
    makeCoords 1 2 3 "wgs84" = none :=
  makeCoords_unknown_none 1 2 3 "wgs84" (by rw [String.toUpper, String.map_eq]; decide)

/-- C8: the conic (SRID 2154) inverse recovers latitude as exactly the
ten-fold application of the eccentricity-correction refinement map to the
Mercator-inverse starting value of the isometric latitude; the loop being
a fixed fold, every operation of the (total, pure) embedding terminates. -/
theorem projFromLambert93_lat_iterate :
    ∀ c : ENUCoords,
      (projFromLambert93 c).lat
        = (lambertRefine (lambertLatiso c))^[10] (lambertPhi0 (lambertLatiso c))
            * 180 / Real.pi := by
  intro c
  simp only [projFromLambert93]
  rw [foldl_range_const]

/-- C5: the inverse-projection dispatch for the UTM band: every SRID in
32600-32799 routes to the UTM inverse with zone `srid % 100`, northern iff
`srid < 32700`; the longitude adds the central meridian
`(zone - 1) * 6 - 180 + 3` converted to radians, the latitude comes from the
series alone, and both use the northing minus the 10,000,000 m false northing
exactly when the hemisphere is southern; SRID 2154 routes to the Lambert-93
(conic) inverse. -/
theorem unproj_dispatch :
    ∀ c : ENUCoords,
      unproj c 2154 = .ok (projFromLambert93 c) ∧
      ∀ srid : ℤ, 32600 ≤ srid → srid ≤ 32799 →
        unproj c srid = .ok (projFromUTM c (srid % 100) (decide (srid < 32700))) ∧
        (projFromUTM c (srid % 100) (decide (srid < 32700))).lon
          = ((utmInverseRad (c.E - 500000)
                (if srid < 32700 then c.N else c.N - 10000000)).2
              + ((srid % 100 - 1) * 6 - 180 + 3 : ℤ) * Real.pi / 180) * 180 / Real.pi ∧
        (projFromUTM c (srid % 100) (decide (srid < 32700))).lat
          = (utmInverseRad (c.E - 500000)
                (if srid < 32700 then c.N else c.N - 10000000)).1 * 180 / Real.pi := by
  intro c
  refine ⟨by simp [unproj], ?_⟩
  intro srid h1 h2
  have hz : (srid - 32600) % 100 = srid % 100 := by omega
  have hne : srid ≠ 2154 := by omega
  refine ⟨?_, ?_, ?_⟩
  · rw [unproj, if_neg hne, if_pos ⟨h1, h2⟩, hz]
  · by_cases hn : srid < 32700 <;> simp [projFromUTM, hn]
  · by_cases hn : srid < 32700 <;> simp [projFromUTM, hn]

/-- Witness for C5 at SRID 32733 (UTM zone 33, southern hemisphere) and a
concrete projected point. -/
theorem unproj_dispatch_witness :
    unproj ⟨500000, 2000000, 0⟩ 32733
        = .ok (projFromUTM ⟨500000, 2000000, 0⟩ ((32733 : ℤ) % 100)
            (decide ((32733 : ℤ) < 32700))) ∧
    (projFromUTM ⟨500000, 2000000, 0⟩ ((32733 : ℤ) % 100)
        (decide ((32733 : ℤ) < 32700))).lon
      = ((utmInverseRad ((500000 : ℝ) - 500000)
            (if (32733 : ℤ) < 32700 then (2000000 : ℝ) else (2000000 : ℝ) - 10000000)).2
          + (((32733 : ℤ) % 100 - 1) * 6 - 180 + 3 : ℤ) * Real.pi / 180) * 180 / Real.pi ∧
    (projFromUTM ⟨500000, 2000000, 0⟩ ((32733 : ℤ) % 100)
        (decide ((32733 : ℤ) < 32700))).lat
      = (utmInverseRad ((500000 : ℝ) - 500000)
            (if (32733 : ℤ) < 32700 then (2000000 : ℝ) else (2000000 : ℝ) - 10000000)).1
          * 180 / Real.pi :=
  (unproj_dispatch ⟨500000, 2000000, 0⟩).2 32733 (by norm_num) (by norm_num)

/-- C1: for every ECEF point and every base (ECEF or Geodetic), converting to
ENU relative to the base and back with the same base reproduces the original
X, Y, Z exactly (the local rotation is orthogonal and the base offset is
added back), hence in particular within 1e-6 m. -/
theorem ecef_enu_ecef_roundtrip :
    ∀ (p : ECEFCoords) (base : BaseCoords),
      (p.toENUCoords base).toECEFCoords base = p ∧
      |((p.toENUCoords base).toECEFCoords base).X - p.X| ≤ 1e-6 ∧
      |((p.toENUCoords base).toECEFCoords base).Y - p.Y| ≤ 1e-6 ∧
      |((p.toENUCoords base).toECEFCoords base).Z - p.Z| ≤ 1e-6 := by
  intro p base
  have key : (p.toENUCoords base).toECEFCoords base = p := by
    obtain ⟨pX, pY, pZ⟩ := p
    simp only [ECEFCoords.toENUCoords, ENUCoords.toECEFCoords]
    set B := base.toECEFCoords with hB
    set lam := B.toGeoCoords.lon * Real.pi / 180.0 with hlam
    set phi := B.toGeoCoords.lat * Real.pi / 180.0 with hphi
    have h1 := Real.sin_sq_add_cos_sq lam
    have h2 := Real.sin_sq_add_cos_sq phi
    simp only [ECEFCoords.mk.injEq]
    refine ⟨?_, ?_, ?_⟩
    · linear_combination ((pX - B.X) * Real.cos lam ^ 2
        + (pY - B.Y) * Real.sin lam * Real.cos lam) * h2 + (pX - B.X) * h1
    · linear_combination ((pX - B.X) * Real.sin lam * Real.cos lam
        + (pY - B.Y) * Real.sin lam ^ 2) * h2 + (pY - B.Y) * h1
    · linear_combination (pZ - B.Z) * h2
  have htol : (0 : ℝ) ≤ 1e-6 := by norm_num
  refine ⟨key, ?_, ?_, ?_⟩ <;> rw [key] <;> simpa using htol

/-- C9 counterexample: `ECEFCoords.scalar` is an operation of the coordinate
types that is not among the claim's exceptions, yet it mutates its receiver
in place: run on the receiver (1, 2, 3) with factor 2 the receiver becomes
(2, 4, 6), which differs from the original. -/
theorem scalar_not_side_effect_free :
    ECEFCoords.scalar ⟨1, 2, 3⟩ 2 = ⟨2, 4, 6⟩ ∧
    ECEFCoords.scalar ⟨1, 2, 3⟩ 2 ≠ ⟨1, 2, 3⟩ := by
  constructor
  · norm_num [ECEFCoords.scalar, ECEFCoords.mk.injEq]
  · norm_num [ECEFCoords.scalar, ECEFCoords.mk.injEq]

/-- C9 as amended: every operation of the three coordinate types apart from
the in-place mutators (`ENUCoords.rotate`, `ENUCoords.scale`,
`ENUCoords.translate` and `ECEFCoords.scalar`) and the explicit field setters
is side-effect-free: its state-passing form returns the receiver and every
coordinate-valued argument unchanged, for the full embedded method set —
conversions (including ENU to Geo and ENU re-basing), `copy`, norms, dot
products, vector sum and difference, the distance, elevation and azimuth
queries, the projection entry point and the alias getters. Numeric arguments
are immutable Python values; the result is a newly constructed value. -/
theorem nonmutators_side_effect_free :
    (∀ s : GeoCoords, s.toECEFCoordsS.1 = s) ∧
    (∀ s b : GeoCoords, (s.toENUCoordsS b).1 = s ∧ (s.toENUCoordsS b).2.1 = b) ∧
    (∀ s : GeoCoords, s.toGeoCoordsS.1 = s) ∧
    (∀ s : GeoCoords, s.copyS.1 = s) ∧
    (∀ s p : GeoCoords, (s.distanceToS p).1 = s ∧ (s.distanceToS p).2.1 = p) ∧
    (∀ s p : GeoCoords, (s.distance2DToS p).1 = s ∧ (s.distance2DToS p).2.1 = p) ∧
    (∀ s p : GeoCoords, (s.elevationToS p).1 = s ∧ (s.elevationToS p).2.1 = p) ∧
    (∀ s p : GeoCoords, (s.azimuthToS p).1 = s ∧ (s.azimuthToS p).2.1 = p) ∧
    (∀ (s : GeoCoords) (srid : ℤ), (s.toProjCoordsS srid).1 = s) ∧
    (∀ s : GeoCoords, s.getXS.1 = s) ∧
    (∀ s : GeoCoords, s.getYS.1 = s) ∧
    (∀ s : GeoCoords, s.getZS.1 = s) ∧
    (∀ (s : ENUCoords) (b : BaseCoords),
      (s.toECEFCoordsS b).1 = s ∧ (s.toECEFCoordsS b).2.1 = b) ∧
    (∀ (s : ENUCoords) (b : BaseCoords),
      (s.toGeoCoordsS b).1 = s ∧ (s.toGeoCoordsS b).2.1 = b) ∧
    (∀ (s : ENUCoords) (b1 b2 : BaseCoords),
      (s.toENUCoordsS b1 b2).1 = s ∧ (s.toENUCoordsS b1 b2).2.1 = b1 ∧
        (s.toENUCoordsS b1 b2).2.2.1 = b2) ∧
    (∀ s : ENUCoords, s.norm2DS.1 = s) ∧
    (∀ s : ENUCoords, s.normS.1 = s) ∧
    (∀ s p : ENUCoords, (s.dotS p).1 = s ∧ (s.dotS p).2.1 = p) ∧
    (∀ s p : ENUCoords, (s.elevationToS p).1 = s ∧ (s.elevationToS p).2.1 = p) ∧
    (∀ s p : ENUCoords, (s.azimuthToS p).1 = s ∧ (s.azimuthToS p).2.1 = p) ∧
    (∀ s p : ENUCoords, (s.subS p).1 = s ∧ (s.subS p).2.1 = p) ∧
    (∀ s p : ENUCoords, (s.addS p).1 = s ∧ (s.addS p).2.1 = p) ∧
    (∀ s p : ENUCoords, (s.distance2DToS p).1 = s ∧ (s.distance2DToS p).2.1 = p) ∧
    (∀ s p : ENUCoords, (s.distanceToS p).1 = s ∧ (s.distanceToS p).2.1 = p) ∧
    (∀ s : ENUCoords, s.copyS.1 = s) ∧
    (∀ s : ENUCoords, s.getXS.1 = s) ∧
    (∀ s : ENUCoords, s.getYS.1 = s) ∧
    (∀ s : ENUCoords, s.getZS.1 = s) ∧
    (∀ s : ECEFCoords, s.toGeoCoordsS.1 = s) ∧
    (∀ (s : ECEFCoords) (b : BaseCoords),
      (s.toENUCoordsS b).1 = s ∧ (s.toENUCoordsS b).2.1 = b) ∧
    (∀ s : ECEFCoords, s.toECEFCoordsS.1 = s) ∧
    (∀ s p : ECEFCoords, (s.elevationToS p).1 = s ∧ (s.elevationToS p).2.1 = p) ∧
    (∀ s p : ECEFCoords, (s.azimuthToS p).1 = s ∧ (s.azimuthToS p).2.1 = p) ∧
    (∀ s p : ECEFCoords, (s.dotS p).1 = s ∧ (s.dotS p).2.1 = p) ∧
    (∀ s : ECEFCoords, s.normS.1 = s) ∧
    (∀ s p : ECEFCoords, (s.subS p).1 = s ∧ (s.subS p).2.1 = p) ∧
    (∀ s p : ECEFCoords, (s.addS p).1 = s ∧ (s.addS p).2.1 = p) ∧
    (∀ s p : ECEFCoords, (s.distanceToS p).1 = s ∧ (s.distanceToS p).2.1 = p) ∧
    (∀ s : ECEFCoords, s.copyS.1 = s) ∧
    (∀ s : ECEFCoords, s.getXS.1 = s) ∧
    (∀ s : ECEFCoords, s.getYS.1 = s) ∧
    (∀ s : ECEFCoords, s.getZS.1 = s) := by
  repeat' apply And.intro
  all_goals intros
  all_goals first
    | exact ⟨rfl, rfl, rfl⟩
    | exact ⟨rfl, rfl⟩
    | rfl

/-- C3 (evaluation at the failing inputs): because `ENUCoords.__sub__`
returns its argument minus its receiver, `visee = point - self` is the
ORIGIN-minus-TARGET vector, so the code's ENU elevation and azimuth are the
negation of the claimed `atan2` of `d = B - A`: with origin A = (0,0,0) and
target B = (0,0,1) the code's elevation is -(pi/2) while the claimed formula
gives pi/2; with target B = (1,0,0) the code's azimuth is -(pi/2) while the
claimed formula gives pi/2. -/
theorem enu_elevation_azimuth_sign_flip :
    ENUCoords.elevationTo ⟨0, 0, 0⟩ ⟨0, 0, 1⟩ = -(Real.pi / 2) ∧
    atan2 ((1 : ℝ) - 0) (Real.sqrt (((0 : ℝ) - 0) ^ 2 + ((0 : ℝ) - 0) ^ 2)) = Real.pi / 2 ∧
    ENUCoords.azimuthTo ⟨0, 0, 0⟩ ⟨1, 0, 0⟩ = -(Real.pi / 2) ∧
    atan2 ((1 : ℝ) - 0) ((0 : ℝ) - 0) = Real.pi / 2 ∧
    -(Real.pi / 2) ≠ Real.pi / 2 := by
  have hone : (0 : ℝ) < 1 := one_pos
  refine ⟨?_, ?_, ?_, ?_, ?_⟩
  · have h : ENUCoords.elevationTo ⟨0, 0, 0⟩ ⟨0, 0, 1⟩ = atan2 (-1) 0 := by
      simp [ENUCoords.elevationTo, ENUCoords.sub, ENUCoords.norm2D]
    rw [h, atan2_imag_neg (by norm_num)]
  · have h : Real.sqrt (((0 : ℝ) - 0) ^ 2 + ((0 : ℝ) - 0) ^ 2) = 0 := by simp
    rw [h]
    simpa using atan2_imag_pos hone
  · have h : ENUCoords.azimuthTo ⟨0, 0, 0⟩ ⟨1, 0, 0⟩ = atan2 (-1) 0 := by
      simp [ENUCoords.azimuthTo, ENUCoords.sub]
    rw [h, atan2_imag_neg (by norm_num)]
  · simpa using atan2_imag_pos hone
  · have hpi := Real.pi_pos
    intro h
    linarith

/-! Concrete evaluations used to separate the two possible directions of
`distance2DTo`: the geodetic points A = (lon 0, lat 0, hgt 0) and
B = (lon 90, lat 0, hgt 1) sit on the equatorial plane, where every
trigonometric subterm evaluates exactly. -/

lemma ecef_geo_equator_x :
    (ECEFCoords.toGeoCoords ⟨Re, 0, 0⟩).lon = 0 ∧
    (ECEFCoords.toGeoCoords ⟨Re, 0, 0⟩).lat = 0 := by
  have hp : Real.sqrt (Re * Re + 0 * 0) = Re := by
    rw [mul_zero, add_zero]
    exact Real.sqrt_mul_self Re_pos.le
  simp only [ECEFCoords.toGeoCoords, hp]
  have ht : atan2 (0 * Re) (Re * (Re * (1 - Fe))) = 0 := by
    rw [zero_mul]
    exact atan2_zero_of_pos (by norm_num [Re, Fe])
  rw [ht, Real.sin_zero, Real.cos_zero]
  refine ⟨by rw [atan2_zero_of_pos Re_pos, zero_mul], ?_⟩
  have h2 : (0 : ℝ) + (Re * Re - Re * (1 - Fe) * (Re * (1 - Fe))) / (Re * (1 - Fe)) * (0 : ℝ) ^ 3
      = 0 := by ring
  rw [h2]
  have h3 : (0 : ℝ) < Re - (Re * Re - Re * (1 - Fe) * (Re * (1 - Fe))) / Re * (1 : ℝ) ^ 3 := by
    norm_num [Re, Fe]
  rw [atan2_zero_of_pos h3, zero_mul]

lemma ecef_geo_equator_y :
    (ECEFCoords.toGeoCoords ⟨0, Re + 1, 0⟩).lon = 90 ∧
    (ECEFCoords.toGeoCoords ⟨0, Re + 1, 0⟩).lat = 0 := by
  have hRe1 : (0 : ℝ) < Re + 1 := by norm_num [Re]
  have hp : Real.sqrt (0 * 0 + (Re + 1) * (Re + 1)) = Re + 1 := by
    rw [zero_mul, zero_add]
    exact Real.sqrt_mul_self hRe1.le
  simp only [ECEFCoords.toGeoCoords, hp]
  have ht : atan2 (0 * Re) ((Re + 1) * (Re * (1 - Fe))) = 0 := by
    rw [zero_mul]
    exact atan2_zero_of_pos (by norm_num [Re, Fe])
  rw [ht, Real.sin_zero, Real.cos_zero]
  constructor
  · rw [atan2_imag_pos hRe1]
    field_simp
    ring
  · have h2 : (0 : ℝ)
        + (Re * Re - Re * (1 - Fe) * (Re * (1 - Fe))) / (Re * (1 - Fe)) * (0 : ℝ) ^ 3 = 0 := by
      ring
    rw [h2]
    have h3 : (0 : ℝ) < Re + 1 - (Re * Re - Re * (1 - Fe) * (Re * (1 - Fe))) / Re * (1 : ℝ) ^ 3 := by
      norm_num [Re, Fe]
    rw [atan2_zero_of_pos h3, zero_mul]

lemma geo_ecef_origin : GeoCoords.toECEFCoords ⟨0, 0, 0⟩ = ⟨Re, 0, 0⟩ := by
  simp only [GeoCoords.toECEFCoords]
  have h0 : (0 : ℝ) * Real.pi / 180.0 = 0 := by ring
  rw [h0, Real.sin_zero, Real.cos_zero]
  simp [ECEFCoords.mk.injEq, Real.sqrt_one]

lemma geo_ecef_east : GeoCoords.toECEFCoords ⟨90, 0, 1⟩ = ⟨0, Re + 1, 0⟩ := by
  simp only [GeoCoords.toECEFCoords]
  have h90 : (90 : ℝ) * Real.pi / 180.0 = Real.pi / 2 := by ring
  have h0 : (0 : ℝ) * Real.pi / 180.0 = 0 := by ring
  rw [h90, h0, Real.sin_zero, Real.cos_zero, Real.sin_pi_div_two, Real.cos_pi_div_two]
  simp [ECEFCoords.mk.injEq, Real.sqrt_one]

lemma enu_A_rel_B :
    ECEFCoords.toENUCoords ⟨Re, 0, 0⟩ (.inl ⟨0, Re + 1, 0⟩) = ⟨-Re, 0, -(Re + 1)⟩ := by
  simp only [ECEFCoords.toENUCoords, BaseCoords.toECEFCoords]
  rw [ecef_geo_equator_y.1, ecef_geo_equator_y.2]
  have h90 : (90 : ℝ) * Real.pi / 180.0 = Real.pi / 2 := by ring
  have h0 : (0 : ℝ) * Real.pi / 180.0 = 0 := by ring
  rw [h90, h0, Real.sin_zero, Real.cos_zero, Real.sin_pi_div_two, Real.cos_pi_div_two]
  simp only [ENUCoords.mk.injEq]
  refine ⟨by ring, by ring, by ring⟩

lemma enu_B_rel_A :
    ECEFCoords.toENUCoords ⟨0, Re + 1, 0⟩ (.inl ⟨Re, 0, 0⟩) = ⟨Re + 1, 0, -Re⟩ := by
  simp only [ECEFCoords.toENUCoords, BaseCoords.toECEFCoords]
  rw [ecef_geo_equator_x.1, ecef_geo_equator_x.2]
  have h0 : (0 : ℝ) * Real.pi / 180.0 = 0 := by ring
  rw [h0, Real.sin_zero, Real.cos_zero]
  simp only [ENUCoords.mk.injEq]
  refine ⟨by ring, by ring, by ring⟩

lemma norm2D_negRe : ENUCoords.norm2D ⟨-Re, 0, -(Re + 1)⟩ = Re := by
  simp only [ENUCoords.norm2D]
  have h : (-Re) ^ 2 + (0 : ℝ) ^ 2 = Re ^ 2 := by ring
  rw [h, Real.sqrt_sq Re_pos.le]

lemma norm2D_Re1 : ENUCoords.norm2D ⟨Re + 1, 0, -Re⟩ = Re + 1 := by
  simp only [ENUCoords.norm2D]
  have h : (Re + 1) ^ 2 + (0 : ℝ) ^ 2 = (Re + 1) ^ 2 := by ring
  rw [h, Real.sqrt_sq (by norm_num [Re] : (0 : ℝ) ≤ Re + 1)]

/-- C4 counterexample: with A = (lon 0, lat 0, hgt 0) and
B = (lon 90, lat 0, hgt 1), `A.distance2DTo B` is `Re` (the planar norm of A
expressed relative to B), while the claim's quantity — the planar norm of the
SECOND point B expressed relative to the FIRST point A as base — is `Re + 1`;
the two differ. -/
theorem distance2DTo_direction_counterexample :
    GeoCoords.distance2DTo ⟨0, 0, 0⟩ ⟨90, 0, 1⟩ = Re ∧
    (GeoCoords.toENUCoords ⟨90, 0, 1⟩ ⟨0, 0, 0⟩).norm2D = Re + 1 ∧
    Re ≠ Re + 1 := by
  refine ⟨?_, ?_, by norm_num⟩
  · simp only [GeoCoords.distance2DTo, GeoCoords.toENUCoords]
    rw [geo_ecef_origin, geo_ecef_east, enu_A_rel_B, norm2D_negRe]
  · simp only [GeoCoords.toENUCoords]
    rw [geo_ecef_origin, geo_ecef_east, enu_B_rel_A, norm2D_Re1]

/-- C4 as amended: `A.distance2DTo B` equals the planar (East, North) norm of
the ENU representation of the FIRST point A computed relative to the SECOND
point B as base (the receiver is converted, the argument is the base). -/
theorem distance2DTo_first_rel_second :
    ∀ a b : GeoCoords, a.distance2DTo b = (a.toENUCoords b).norm2D :=
  fun _ _ => rfl

/-- C2 counterexample: the claim quantifies over every longitude and height.
At (lon 360, lat 0, hgt 0) the recovered longitude is 0 (atan2 folds into its
principal range), an error of 360 degrees; at (lon 0, lat 0, hgt -2*Re), a
point below the geocentre, the recovered longitude is 180. Both violate the
1e-7 degree bound. -/
theorem geo_ecef_geo_counterexample :
    ((GeoCoords.mk 360 0 0).toECEFCoords.toGeoCoords).lon = 0 ∧
    ¬(|((GeoCoords.mk 360 0 0).toECEFCoords.toGeoCoords).lon - 360| ≤ 1e-7) ∧
    ((GeoCoords.mk 0 0 (-(2 * Re))).toECEFCoords.toGeoCoords).lon = 180 ∧
    ¬(|((GeoCoords.mk 0 0 (-(2 * Re))).toECEFCoords.toGeoCoords).lon - 0| ≤ 1e-7) := by
  have hecef1 : GeoCoords.toECEFCoords ⟨360, 0, 0⟩ = ⟨Re, 0, 0⟩ := by
    simp only [GeoCoords.toECEFCoords]
    have h360 : (360 : ℝ) * Real.pi / 180.0 = 2 * Real.pi := by ring
    have h0 : (0 : ℝ) * Real.pi / 180.0 = 0 := by ring
    rw [h360, h0, Real.sin_zero, Real.cos_zero, Real.sin_two_pi, Real.cos_two_pi]
    simp [ECEFCoords.mk.injEq, Real.sqrt_one]
  have hecef2 : GeoCoords.toECEFCoords ⟨0, 0, -(2 * Re)⟩ = ⟨-Re, 0, 0⟩ := by
    simp only [GeoCoords.toECEFCoords]
    have h0 : (0 : ℝ) * Real.pi / 180.0 = 0 := by ring
    rw [h0, Real.sin_zero, Real.cos_zero]
    simp [ECEFCoords.mk.injEq, Real.sqrt_one]
    ring
  have hlon1 : ((GeoCoords.mk 360 0 0).toECEFCoords.toGeoCoords).lon = 0 := by
    rw [hecef1, ecef_geo_equator_x.1]
  have hlon2 : ((GeoCoords.mk 0 0 (-(2 * Re))).toECEFCoords.toGeoCoords).lon = 180 := by
    rw [hecef2]
    have hp : Real.sqrt (-Re * -Re + 0 * 0) = Re := by
      have hx : -Re * -Re + 0 * 0 = Re * Re := by ring
      rw [hx]
      exact Real.sqrt_mul_self Re_pos.le
    simp only [ECEFCoords.toGeoCoords, hp]
    rw [atan2_zero_of_neg (by norm_num [Re] : -Re < (0 : ℝ))]
    field_simp
    norm_num
  refine ⟨hlon1, ?_, hlon2, ?_⟩
  · rw [hlon1]
    norm_num
  · rw [hlon2]
    norm_num

/-- C2 as amended: for every geodetic point with longitude in (-180, 180],
latitude strictly between -89.9 and 89.9 degrees and height 0 (a point on the
reference ellipsoid), the round trip through `GeoCoords.toECEFCoords` and the
Bowring-style `ECEFCoords.toGeoCoords` recovers the point exactly over real
arithmetic — in particular within 1e-7 degrees in longitude and latitude and
1e-3 m in height. -/
theorem geo_ecef_geo_roundtrip (g : GeoCoords)
    (h1 : -180 < g.lon) (h2 : g.lon ≤ 180)
    (h3 : -89.9 < g.lat) (h4 : g.lat < 89.9) (h5 : g.hgt = 0) :
    g.toECEFCoords.toGeoCoords = g ∧
    |g.toECEFCoords.toGeoCoords.lon - g.lon| ≤ 1e-7 ∧
    |g.toECEFCoords.toGeoCoords.lat - g.lat| ≤ 1e-7 ∧
    |g.toECEFCoords.toGeoCoords.hgt - g.hgt| ≤ 1e-3 := by
  obtain ⟨lon, lat, hgt⟩ := g
  dsimp only at h1 h2 h3 h4 h5
  subst h5
  have key : (GeoCoords.mk lon lat 0).toECEFCoords.toGeoCoords = ⟨lon, lat, 0⟩ := by
    have hpi := Real.pi_pos
    set e := Real.sqrt (Fe * (2 - Fe)) with he
    have he2 : e ^ 2 = Fe * (2 - Fe) := Real.sq_sqrt (by norm_num [Fe])
    have hee : e * e = Fe * (2 - Fe) := by rw [← he2]; ring
    set b := Re * (1 - Fe) with hb
    have hbpos : 0 < b := by rw [hb]; norm_num [Re, Fe]
    set lam := lon * Real.pi / 180.0 with hlam
    set phi := lat * Real.pi / 180.0 with hphi
    have hphi_lt : phi < Real.pi / 2 := by rw [hphi]; nlinarith
    have hphi_gt : -(Real.pi / 2) < phi := by rw [hphi]; nlinarith
    have hcphi : 0 < Real.cos phi := Real.cos_pos_of_mem_Ioo ⟨hphi_gt, hphi_lt⟩
    have hlam_mem : lam ∈ Set.Ioc (-Real.pi) Real.pi := by
      constructor
      · rw [hlam]; nlinarith
      · rw [hlam]; nlinarith
    have hphi_mem : phi ∈ Set.Ioc (-Real.pi) Real.pi :=
      ⟨by nlinarith, by nlinarith⟩
    have hpyth : Real.sin phi ^ 2 + Real.cos phi ^ 2 = 1 := Real.sin_sq_add_cos_sq phi
    set w := Real.sqrt (Re ^ 2 * Real.cos phi ^ 2 + b ^ 2 * Real.sin phi ^ 2) with hw
    have hwin_pos : 0 < Re ^ 2 * Real.cos phi ^ 2 + b ^ 2 * Real.sin phi ^ 2 := by
      nlinarith [pow_pos hcphi 2, pow_pos Re_pos 2, sq_nonneg (b * Real.sin phi)]
    have hwpos : 0 < w := Real.sqrt_pos.mpr hwin_pos
    have hw2 : w ^ 2 = Re ^ 2 * Real.cos phi ^ 2 + b ^ 2 * Real.sin phi ^ 2 :=
      Real.sq_sqrt hwin_pos.le
    have hRe0 : (Re : ℝ) ≠ 0 := ne_of_gt Re_pos
    have hw0 : w ≠ 0 := ne_of_gt hwpos
    clear_value e b lam phi w
    have hkey : Real.sqrt (1 - (e * Real.sin phi) ^ 2) = w / Re := by
      have hform : 1 - (e * Real.sin phi) ^ 2 = (w / Re) ^ 2 := by
        rw [div_pow, hw2, hb]
        field_simp [hRe0]
        linear_combination (-(Re ^ 2 * Real.sin phi ^ 2)) * he2 + (-(Re ^ 2)) * hpyth
      rw [hform, Real.sqrt_sq (div_nonneg hwpos.le Re_pos.le)]
    have hn : Re / Real.sqrt (1 - (e * Real.sin phi) ^ 2) = Re ^ 2 / w := by
      rw [hkey]
      field_simp
      ring
    have hXYZ : GeoCoords.toECEFCoords ⟨lon, lat, 0⟩
        = ⟨Re ^ 2 / w * (Real.cos phi * Real.cos lam),
           Re ^ 2 / w * (Real.cos phi * Real.sin lam),
           b ^ 2 * Real.sin phi / w⟩ := by
      simp only [GeoCoords.toECEFCoords, ECEFCoords.mk.injEq]
      rw [← hlam, ← hphi, ← he]
      rw [hn]
      refine ⟨by ring, by ring, ?_⟩
      rw [hee, hb]
      ring
    have hcphi0 : Real.cos phi ≠ 0 := ne_of_gt hcphi
    have hpl := Real.sin_sq_add_cos_sq lam
    have hp : Real.sqrt (Re ^ 2 / w * (Real.cos phi * Real.cos lam)
          * (Re ^ 2 / w * (Real.cos phi * Real.cos lam))
        + Re ^ 2 / w * (Real.cos phi * Real.sin lam)
          * (Re ^ 2 / w * (Real.cos phi * Real.sin lam)))
        = Re ^ 2 * Real.cos phi / w := by
      have hinner : Re ^ 2 / w * (Real.cos phi * Real.cos lam)
            * (Re ^ 2 / w * (Real.cos phi * Real.cos lam))
          + Re ^ 2 / w * (Real.cos phi * Real.sin lam)
            * (Re ^ 2 / w * (Real.cos phi * Real.sin lam))
          = (Re ^ 2 * Real.cos phi / w) ^ 2 := by
        linear_combination (Re ^ 4 * Real.cos phi ^ 2 / w ^ 2) * hpl
      rw [hinner,
        Real.sqrt_sq (div_nonneg (mul_nonneg (pow_nonneg Re_pos.le 2) hcphi.le) hwpos.le)]
    have habs : Real.sqrt ((Re ^ 2 * Real.cos phi / w * b) ^ 2
        + (b ^ 2 * Real.sin phi / w * Re) ^ 2) = Re * b := by
      have hinner : (Re ^ 2 * Real.cos phi / w * b) ^ 2
          + (b ^ 2 * Real.sin phi / w * Re) ^ 2 = (Re * b) ^ 2 := by
        field_simp
        linear_combination (-(Re ^ 2 * b ^ 2)) * hw2
      rw [hinner, Real.sqrt_sq (mul_nonneg Re_pos.le hbpos.le)]
    have hb0 : b ≠ 0 := ne_of_gt hbpos
    have hsin_t : Real.sin (atan2 (b ^ 2 * Real.sin phi / w * Re)
        (Re ^ 2 * Real.cos phi / w * b)) = b * Real.sin phi / w := by
      rw [sin_atan2, habs]
      field_simp
      ring
    have hcos_t : Real.cos (atan2 (b ^ 2 * Real.sin phi / w * Re)
        (Re ^ 2 * Real.cos phi / w * b)) = Re * Real.cos phi / w := by
      have hxne : Re ^ 2 * Real.cos phi / w * b ≠ 0 :=
        ne_of_gt (mul_pos (div_pos (mul_pos (pow_pos Re_pos 2) hcphi) hwpos) hbpos)
      rw [cos_atan2 (Or.inl hxne), habs]
      field_simp
      ring
    have hnum : b ^ 2 * Real.sin phi / w
        + (Re * Re - b * b) / b * (b * Real.sin phi / w) ^ 3
        = Re ^ 2 * b ^ 2 / w ^ 3 * Real.sin phi := by
      field_simp
      linear_combination (b ^ 3 * Real.sin phi * w ^ 4) * hw2
        + (b ^ 3 * Real.sin phi * w ^ 4 * Re ^ 2) * hpyth
    have hden : Re ^ 2 * Real.cos phi / w
        - (Re * Re - b * b) / Re * (Re * Real.cos phi / w) ^ 3
        = Re ^ 2 * b ^ 2 / w ^ 3 * Real.cos phi := by
      field_simp
      linear_combination (Re ^ 3 * Real.cos phi * w ^ 4) * hw2
        + (Re ^ 3 * Real.cos phi * w ^ 4 * b ^ 2) * hpyth
    have hr3 : (0 : ℝ) < Re ^ 2 * b ^ 2 / w ^ 3 :=
      div_pos (mul_pos (pow_pos Re_pos 2) (pow_pos hbpos 2)) (pow_pos hwpos 3)
    have hrc : (0 : ℝ) < Re ^ 2 * Real.cos phi / w :=
      div_pos (mul_pos (pow_pos Re_pos 2) hcphi) hwpos
    rw [hXYZ]
    simp only [ECEFCoords.toGeoCoords, GeoCoords.mk.injEq]
    rw [← hb, ← he, hp, hsin_t, hcos_t, hnum, hden, atan2_mul_cos_sin hr3 hphi_mem, hn]
    have hX' : Re ^ 2 / w * (Real.cos phi * Real.cos lam)
        = Re ^ 2 * Real.cos phi / w * Real.cos lam := by ring
    have hY' : Re ^ 2 / w * (Real.cos phi * Real.sin lam)
        = Re ^ 2 * Real.cos phi / w * Real.sin lam := by ring
    rw [hX', hY', atan2_mul_cos_sin hrc hlam_mem]
    refine ⟨?_, ?_, ?_⟩
    · rw [hlam]
      field_simp
    · rw [hphi]
      field_simp
    · field_simp
      ring
  have t7 : (0 : ℝ) ≤ 1e-7 := by norm_num
  have t3 : (0 : ℝ) ≤ 1e-3 := by norm_num
  refine ⟨key, ?_, ?_, ?_⟩ <;> rw [key]
  · simpa using t7
  · simpa using t7
  · simpa using t3

/-- Witness for C2 at the on-ellipsoid point (lon 0, lat 0, hgt 0). -/
theorem geo_ecef_geo_roundtrip_witness :
    (GeoCoords.mk 0 0 0).toECEFCoords.toGeoCoords = ⟨0, 0, 0⟩ ∧
    |(GeoCoords.mk 0 0 0).toECEFCoords.toGeoCoords.lon - 0| ≤ 1e-7 ∧
    |(GeoCoords.mk 0 0 0).toECEFCoords.toGeoCoords.lat - 0| ≤ 1e-7 ∧
    |(GeoCoords.mk 0 0 0).toECEFCoords.toGeoCoords.hgt - 0| ≤ 1e-3 :=
  geo_ecef_geo_roundtrip ⟨0, 0, 0⟩ (by norm_num) (by norm_num) (by norm_num)
    (by norm_num) rfl

end Tracklib

end
